import Mathlib

/-!
Shallow embedding of the MIFARE Classic dictionary-attack scene
(`applications/main/nfc/scenes/nfc_scene_mf_classic_dict_attack.c`).

The scene is a two-phase state machine (user dictionary, then system
dictionary) driven by poller-session events handled in
`nfc_dict_attack_worker_callback`, with phase transitions and skip handling
in `nfc_scene_mf_classic_dict_attack_on_event`, phase entry in
`nfc_scene_mf_classic_dict_attack_prepare_view`, and teardown in
`nfc_scene_mf_classic_dict_attack_on_exit`.

Modelling conventions:
- A key candidate (`MfClassicKey`, a 6-byte value in C) is modelled by an
  opaque natural number.
- A keys dictionary (`keys_dict` collaborator) is its list of keys in file
  order plus a sequential read cursor.
- The C enums `MfClassicNestedPhase`, `MfClassicPrngType`,
  `MfClassicBackdoor` (defined outside the sampled sources) are modelled by
  their numeric tags, with 0 standing for
  `MfClassicNestedPhaseNone` / `MfClassicPrngTypeUnknown` /
  `MfClassicBackdoorUnknown`, the values assigned at teardown.
- Counters the C code stores in fixed-width integers are modelled as `Nat`;
  they stay far below any overflow bound in the behaviours specified here.
-/

/-- One candidate authentication key (the C `MfClassicKey`, an opaque
6-byte value), modelled by its value. -/
abbrev MfClassicKey := Nat

/-- An open keys dictionary: the ordered key list read from the backing
file, plus the sequential cursor advanced by `keys_dict_get_next_key`. -/
structure KeysDict where
  keys : List MfClassicKey
  cursor : Nat
  deriving Repr, DecidableEq

/-- `keys_dict_get_next_key`: return the candidate at the cursor and
advance it, or report exhaustion leaving the dictionary unchanged. -/
def keys_dict_get_next_key (d : KeysDict) : Option MfClassicKey × KeysDict :=
  match d.keys[d.cursor]? with
  | some k => (some k, { d with cursor := d.cursor + 1 })
  | none => (none, d)

/-- `keys_dict_rewind`: reset the cursor to the start. -/
def keys_dict_rewind (d : KeysDict) : KeysDict :=
  { d with cursor := 0 }

/-- `keys_dict_get_total_keys`: total number of candidates, i.e. the
length of the backing key list. -/
def keys_dict_get_total_keys (d : KeysDict) : Nat :=
  d.keys.length

/-- Snapshot of MIFARE Classic card data (`MfClassicData`) as the scene
consumes it: total sector count derived from the card type
(`mf_classic_get_total_sectors_num`), the aggregates computed by
`mf_classic_get_read_sectors_and_keys`, and the `mf_classic_is_card_read`
flag used by the read notification. -/
structure MfClassicData where
  total_sectors : Nat
  read_sectors : Nat
  found_keys : Nat
  fully_read : Bool
  deriving Repr, DecidableEq

/-- The scene's per-run bookkeeping (`NfcMfClassicDictAttackContext`,
the `nfc_dict_context` member of `NfcApp`), including the handle of the
currently open dictionary. -/
structure NfcMfClassicDictAttackContext where
  dict : KeysDict
  current_sector : Nat
  sectors_total : Nat
  sectors_read : Nat
  keys_found : Nat
  dict_keys_total : Nat
  dict_keys_current : Nat
  is_key_attack : Bool
  key_attack_current_sector : Nat
  is_card_present : Bool
  nested_phase : Nat
  prng_type : Nat
  backdoor : Nat
  nested_target_key : Nat
  msb_count : Nat
  deriving Repr, DecidableEq

/-- Payload of a `MfClassicPollerEventTypeDataUpdate` event: the session's
bulk snapshot merged into the context. -/
structure MfClassicPollerEventDataUpdate where
  sectors_read : Nat
  keys_found : Nat
  current_sector : Nat
  nested_phase : Nat
  prng_type : Nat
  backdoor : Nat
  nested_target_key : Nat
  msb_count : Nat
  deriving Repr, DecidableEq

/-- The poller-session events consumed by `nfc_dict_attack_worker_callback`
(the `MfClassicPollerEventType` tags, with the payload each handler reads).
`success` carries the poller's accumulated card data, which the C handler
fetches with `nfc_poller_get_data`. -/
inductive MfClassicPollerEvent where
  | cardDetected
  | cardLost
  | requestMode
  | requestKey
  | dataUpdate (u : MfClassicPollerEventDataUpdate)
  | nextSector (current_sector : Nat)
  | foundKeyA
  | foundKeyB
  | keyAttackStart (current_sector : Nat)
  | keyAttackStop
  | success (snapshot : MfClassicData)
  deriving Repr, DecidableEq

/-- The custom events the worker callback posts to the view dispatcher
(`NfcCustomEvent` values used by this scene). -/
inductive NfcCustomEvent where
  | cardDetected
  | cardLost
  | dictAttackDataUpdate
  | dictAttackComplete
  | dictAttackSkip
  deriving Repr, DecidableEq

/-- The synchronous answer to a `requestKey` event
(`MfClassicPollerEventDataKeyRequest`): key bytes plus validity flag.
When no key is available the C code leaves the zero-initialised key. -/
structure KeyRequestData where
  key : MfClassicKey
  key_provided : Bool
  deriving Repr, DecidableEq

/-- Everything one invocation of `nfc_dict_attack_worker_callback` does:
the updated context (dictionary handle included), the device record after
any `nfc_device_set_data` call, the key answer for a `requestKey` event,
the custom events posted to the view dispatcher in order, the number of
`nfc_device_set_data` calls made, and whether it returned
`NfcCommandStop`. -/
structure WorkerOut where
  ctx : NfcMfClassicDictAttackContext
  device_data : MfClassicData
  key_request : Option KeyRequestData
  sent : List NfcCustomEvent
  set_data_calls : Nat
  stop : Bool
  deriving Repr, DecidableEq

/-- `nfc_dict_attack_worker_callback`: dispatch on the poller event type,
mutating the context exactly as the C handler does. `device_data` is the
device record (`instance->nfc_device`), read by `requestMode` and written
by the `success` handler. -/
def nfc_dict_attack_worker_callback (device_data : MfClassicData)
    (ctx : NfcMfClassicDictAttackContext) (e : MfClassicPollerEvent) : WorkerOut :=
  match e with
  | .cardDetected =>
      { ctx := { ctx with is_card_present := true }, device_data := device_data,
        key_request := none, sent := [.cardDetected], set_data_calls := 0, stop := false }
  | .cardLost =>
      { ctx := { ctx with is_card_present := false }, device_data := device_data,
        key_request := none, sent := [.cardLost], set_data_calls := 0, stop := false }
  | .requestMode =>
      { ctx := { ctx with
          sectors_total := device_data.total_sectors,
          sectors_read := device_data.read_sectors,
          keys_found := device_data.found_keys },
        device_data := device_data,
        key_request := none, sent := [.dictAttackDataUpdate], set_data_calls := 0, stop := false }
  | .requestKey =>
      match keys_dict_get_next_key ctx.dict with
      | (some k, d) =>
          { ctx := { ctx with dict := d, dict_keys_current := ctx.dict_keys_current + 1 },
            device_data := device_data,
            key_request := some { key := k, key_provided := true },
            sent := if (ctx.dict_keys_current + 1) % 10 = 0 then [.dictAttackDataUpdate] else [],
            set_data_calls := 0, stop := false }
      | (none, d) =>
          { ctx := { ctx with dict := d }, device_data := device_data,
            key_request := some { key := 0, key_provided := false },
            sent := [], set_data_calls := 0, stop := false }
  | .dataUpdate u =>
      { ctx := { ctx with
          sectors_read := u.sectors_read,
          keys_found := u.keys_found,
          current_sector := u.current_sector,
          nested_phase := u.nested_phase,
          prng_type := u.prng_type,
          backdoor := u.backdoor,
          nested_target_key := u.nested_target_key,
          msb_count := u.msb_count },
        device_data := device_data,
        key_request := none, sent := [.dictAttackDataUpdate], set_data_calls := 0, stop := false }
  | .nextSector cs =>
      { ctx := { ctx with
          dict := keys_dict_rewind ctx.dict,
          dict_keys_current := 0,
          current_sector := cs },
        device_data := device_data,
        key_request := none, sent := [.dictAttackDataUpdate], set_data_calls := 0, stop := false }
  | .foundKeyA =>
      { ctx := ctx, device_data := device_data,
        key_request := none, sent := [.dictAttackDataUpdate], set_data_calls := 0, stop := false }
  | .foundKeyB =>
      { ctx := ctx, device_data := device_data,
        key_request := none, sent := [.dictAttackDataUpdate], set_data_calls := 0, stop := false }
  | .keyAttackStart cs =>
      { ctx := { ctx with
          key_attack_current_sector := cs,
          is_key_attack := true },
        device_data := device_data,
        key_request := none, sent := [.dictAttackDataUpdate], set_data_calls := 0, stop := false }
  | .keyAttackStop =>
      { ctx := { ctx with
          dict := keys_dict_rewind ctx.dict,
          is_key_attack := false,
          dict_keys_current := 0 },
        device_data := device_data,
        key_request := none, sent := [.dictAttackDataUpdate], set_data_calls := 0, stop := false }
  | .success snapshot =>
      { ctx := ctx, device_data := snapshot,
        key_request := none, sent := [.dictAttackComplete], set_data_calls := 1, stop := true }

/-- The scene's top-level phase (`DictAttackState`), stored in the scene
manager's scene state. -/
inductive DictAttackState where
  | userDictInProgress
  | systemDictInProgress
  deriving Repr, DecidableEq

/-- The header text set by `dict_attack_set_header` (phase-specific). -/
inductive DictHeader where
  | blank
  | userDictionary
  | systemDictionary
  deriving Repr, DecidableEq

/-- The external environment of one attack run: the user dictionary file
(`none` when `keys_dict_check_presence` fails on its path), the system
dictionary file contents, and the card data initially held by the device
record (`nfc_device_get_data`). -/
structure Env where
  user_dict : Option (List MfClassicKey)
  system_dict : List MfClassicKey
  initial_device_data : MfClassicData
  deriving Repr, DecidableEq

/-- The scene-level state: phase, bookkeeping context (dictionary handle
included), device record contents, plus observable resource accounting —
whether a poller session is running, how many sessions were started
(`nfc_poller_start` calls), how many dictionary handles are currently open
(`keys_dict_alloc` minus `keys_dict_free`), how many times
`nfc_device_set_data` ran, whether the scene has concluded by advancing to
`NfcSceneReadSuccess`, and the current header. -/
structure SceneState where
  phase : DictAttackState
  ctx : NfcMfClassicDictAttackContext
  device_data : MfClassicData
  poller_running : Bool
  sessions_started : Nat
  open_handles : Nat
  set_data_count : Nat
  concluded : Bool
  header : DictHeader
  deriving Repr, DecidableEq

/-- `nfc_scene_mf_classic_dict_attack_prepare_view`: phase entry. In the
user phase, skip to the system phase when the user dictionary is absent
(`keys_dict_check_presence` fails) or, after opening it with
`KeysDictModeOpenAlways`, when it holds zero keys (freeing the empty
handle); otherwise keep the open user dictionary and set the user header.
When the (possibly updated) phase is the system phase, open the system
dictionary with `KeysDictModeOpenExisting` and set the system header.
Finally cache `dict_keys_total` from the open dictionary and reset
`dict_keys_current` to 0. The staging `storage_common_remove` /
`storage_common_copy` calls only maintain the nested-attack working
copies and are invisible to this scene's state. -/
def nfc_scene_mf_classic_dict_attack_prepare_view (env : Env) (s : SceneState) : SceneState :=
  let s1 :=
    if s.phase = DictAttackState.userDictInProgress then
      match env.user_dict with
      | none => { s with phase := DictAttackState.systemDictInProgress }
      | some keys =>
          if keys.length = 0 then
            { s with
              open_handles := s.open_handles + 1 - 1,
              phase := DictAttackState.systemDictInProgress }
          else
            { s with
              ctx := { s.ctx with dict := { keys := keys, cursor := 0 } },
              open_handles := s.open_handles + 1,
              header := DictHeader.userDictionary }
    else s
  let s2 :=
    if s1.phase = DictAttackState.systemDictInProgress then
      { s1 with
        ctx := { s1.ctx with dict := { keys := env.system_dict, cursor := 0 } },
        open_handles := s1.open_handles + 1,
        header := DictHeader.systemDictionary }
    else s1
  { s2 with ctx := { s2.ctx with
      dict_keys_total := keys_dict_get_total_keys s2.ctx.dict,
      dict_keys_current := 0 } }

/-- The context as it stands at scene entry: the owning application zeroes
it at allocation and `nfc_scene_mf_classic_dict_attack_on_exit` re-zeroes
it, so a run starts from all-zero/unknown fields and an empty handle. -/
def initialContext : NfcMfClassicDictAttackContext :=
  { dict := { keys := [], cursor := 0 },
    current_sector := 0, sectors_total := 0, sectors_read := 0, keys_found := 0,
    dict_keys_total := 0, dict_keys_current := 0,
    is_key_attack := false, key_attack_current_sector := 0,
    is_card_present := false,
    nested_phase := 0, prng_type := 0, backdoor := 0,
    nested_target_key := 0, msb_count := 0 }

/-- `nfc_scene_mf_classic_dict_attack_on_enter`: set the scene state to
the user phase, run phase entry, then allocate and start the poller
session. -/
def nfc_scene_mf_classic_dict_attack_on_enter (env : Env) : SceneState :=
  let s0 : SceneState :=
    { phase := DictAttackState.userDictInProgress,
      ctx := initialContext,
      device_data := env.initial_device_data,
      poller_running := false, sessions_started := 0, open_handles := 0,
      set_data_count := 0, concluded := false, header := DictHeader.blank }
  let s1 := nfc_scene_mf_classic_dict_attack_prepare_view env s0
  { s1 with poller_running := true, sessions_started := s1.sessions_started + 1 }

/-- The phase-transition arm shared by the `dictAttackComplete` and
`dictAttackSkip` handlers in the user phase: stop and free the poller,
free the dictionary handle, set the scene state to the system phase,
re-run phase entry, then allocate and start a fresh poller session. -/
def dictAttackAdvanceToSystem (env : Env) (s : SceneState) : SceneState :=
  let s1 := nfc_scene_mf_classic_dict_attack_prepare_view env
    { s with
      poller_running := false,
      open_handles := s.open_handles - 1,
      phase := DictAttackState.systemDictInProgress }
  { s1 with poller_running := true, sessions_started := s1.sessions_started + 1 }

/-- The finalizing arm: `nfc_scene_mf_classic_dict_attack_notify_read`
plays a success or semi-success notification, then the scene advances to
`NfcSceneReadSuccess` (modelled by `concluded := true`). -/
def dictAttackFinalize (s : SceneState) : SceneState :=
  { s with concluded := true }

/-- The custom-event arm of `nfc_scene_mf_classic_dict_attack_on_event`.
`snapshot` is the poller's current card data (`nfc_poller_get_data`),
read only by the `dictAttackSkip` handler, which persists it with
`nfc_device_set_data` before branching on phase and card presence.
`cardDetected` / `cardLost` / `dictAttackDataUpdate` only update the view
widget and leave the scene state unchanged. -/
def nfc_scene_mf_classic_dict_attack_on_event (env : Env) (snapshot : MfClassicData)
    (s : SceneState) (e : NfcCustomEvent) : SceneState :=
  match e with
  | .dictAttackComplete =>
      if s.phase = DictAttackState.userDictInProgress then
        dictAttackAdvanceToSystem env s
      else
        dictAttackFinalize s
  | .dictAttackSkip =>
      let s1 := { s with
        device_data := snapshot,
        set_data_count := s.set_data_count + 1 }
      if s.phase = DictAttackState.userDictInProgress then
        if s.ctx.is_card_present then
          dictAttackAdvanceToSystem env s1
        else
          dictAttackFinalize s1
      else
        dictAttackFinalize s1
  | _ => s

/-- One externally visible step of the running scene: either a poller
event, processed by `nfc_dict_attack_worker_callback` and followed by the
scene handler for each custom event it posted, or the user pressing Skip
(`DictAttackEventSkipPressed`, posted as `dictAttackSkip`), which carries
the poller's card data at that moment. -/
inductive Step where
  | poller (e : MfClassicPollerEvent)
  | skip (snapshot : MfClassicData)
  deriving Repr, DecidableEq

/-- Apply one `Step` to the scene state. Once the scene has concluded it
has advanced to `NfcSceneReadSuccess` and processes no further
dictionary-attack events. The worker callback never posts
`dictAttackSkip`, so the snapshot handed to the custom-event handler on
the poller branch is never consulted. -/
def sceneStep (env : Env) (s : SceneState) (e : Step) : SceneState :=
  if s.concluded then s
  else
    match e with
    | .poller pe =>
        let w := nfc_dict_attack_worker_callback s.device_data s.ctx pe
        let s1 := { s with
          ctx := w.ctx,
          device_data := w.device_data,
          set_data_count := s.set_data_count + w.set_data_calls,
          poller_running := s.poller_running && !w.stop }
        w.sent.foldl (nfc_scene_mf_classic_dict_attack_on_event env w.device_data) s1
    | .skip snapshot =>
        nfc_scene_mf_classic_dict_attack_on_event env snapshot s NfcCustomEvent.dictAttackSkip

/-- Run a trace of steps from a starting scene state. -/
def sceneRun (env : Env) (s : SceneState) (es : List Step) : SceneState :=
  es.foldl (sceneStep env) s

/-- `nfc_scene_mf_classic_dict_attack_on_exit`: teardown. Stop and free
the poller, reset the view, reset the scene state to the user phase, free
the dictionary handle, and reset the context fields the C code lists —
all of them except `nested_target_key` and `msb_count`, which the C
function does not assign. -/
def nfc_scene_mf_classic_dict_attack_on_exit (s : SceneState) : SceneState :=
  { s with
    poller_running := false,
    phase := DictAttackState.userDictInProgress,
    open_handles := s.open_handles - 1,
    header := DictHeader.blank,
    ctx := { s.ctx with
      current_sector := 0,
      sectors_total := 0,
      sectors_read := 0,
      keys_found := 0,
      dict_keys_total := 0,
      dict_keys_current := 0,
      is_key_attack := false,
      key_attack_current_sector := 0,
      is_card_present := false,
      nested_phase := 0,
      prng_type := 0,
      backdoor := 0 } }

/-- Iterate `requestKey` poller events through the worker callback,
threading the context (and the dictionary handle inside it). -/
def workerIterKey (dev : MfClassicData) :
    Nat → NfcMfClassicDictAttackContext → NfcMfClassicDictAttackContext
  | 0, ctx => ctx
  | n + 1, ctx =>
      workerIterKey dev n (nfc_dict_attack_worker_callback dev ctx .requestKey).ctx

/-- After `j` `requestKey` events from a context whose cursor agrees with
`dict_keys_current` and is within bounds, both advance to
`min (start + j) total` and nothing else changes. -/
theorem workerIterKey_spec (dev : MfClassicData) (keys : List MfClassicKey) :
    ∀ (j : Nat) (ctx : NfcMfClassicDictAttackContext),
      ctx.dict.keys = keys →
      ctx.dict.cursor = ctx.dict_keys_current →
      ctx.dict_keys_current ≤ keys.length →
      workerIterKey dev j ctx =
        { ctx with
          dict := { keys := keys, cursor := min (ctx.dict_keys_current + j) keys.length },
          dict_keys_current := min (ctx.dict_keys_current + j) keys.length } := by
  intro j
  induction j with
  | zero =>
      intro ctx hk hc hle
      simp only [workerIterKey, Nat.add_zero, Nat.min_eq_left hle]
      cases ctx with
      | mk dict cs st sr kf dkt dkc ika kacs icp np pt bd ntk mc =>
          cases dict
          simp only at hk hc
          subst hk
          simp [hc]
  | succ n ih =>
      intro ctx hk hc hle
      rcases Nat.lt_or_ge ctx.dict_keys_current keys.length with hlt | hge
      · have hget : ctx.dict.keys[ctx.dict.cursor]? = some (keys.get ⟨ctx.dict_keys_current, hlt⟩) := by
          rw [hk, hc]
          exact List.getElem?_eq_getElem hlt
        simp only [workerIterKey, nfc_dict_attack_worker_callback, keys_dict_get_next_key, hget]
        rw [ih { ctx with
            dict := { ctx.dict with cursor := ctx.dict.cursor + 1 },
            dict_keys_current := ctx.dict_keys_current + 1 } hk (by simp [hc]) hlt]
        have harith : ctx.dict_keys_current + 1 + n = ctx.dict_keys_current + (n + 1) := by omega
        simp [harith]
      · have heq : ctx.dict_keys_current = keys.length := Nat.le_antisymm hle hge
        have hget : ctx.dict.keys[ctx.dict.cursor]? = none := by
          rw [hk, hc]
          exact List.getElem?_eq_none (by omega)
        simp only [workerIterKey, nfc_dict_attack_worker_callback, keys_dict_get_next_key, hget]
        rw [ih { ctx with dict := ctx.dict } hk hc hle]
        have hmin1 : min (ctx.dict_keys_current + n) keys.length = keys.length := by omega
        have hmin2 : min (ctx.dict_keys_current + (n + 1)) keys.length = keys.length := by omega
        simp [hmin1, hmin2]

/-- C1: for a dictionary of `N` candidates, starting from a rewound
context (cursor and `dict_keys_current` both 0), each of the first `N`
`requestKey` events supplies the next candidate in file order with
`key_provided = true` and increments `dict_keys_current` by exactly 1,
posting the observer notification exactly when the new value is a
multiple of 10; every later `requestKey` event answers
`key_provided = false` and leaves the context (so `dict_keys_current`,
stuck at `N`) unchanged. -/
theorem requestKey_supplies_candidates_in_order
    (dev : MfClassicData) (keys : List MfClassicKey)
    (ctx0 : NfcMfClassicDictAttackContext)
    (h0 : ctx0.dict = { keys := keys, cursor := 0 })
    (hc : ctx0.dict_keys_current = 0)
    (j : Nat) (ctxj : NfcMfClassicDictAttackContext)
    (hj : workerIterKey dev j ctx0 = ctxj) :
    (∀ hlt : j < keys.length,
      (nfc_dict_attack_worker_callback dev ctxj .requestKey).key_request
          = some { key := keys.get ⟨j, hlt⟩, key_provided := true } ∧
      ctxj.dict_keys_current = j ∧
      (nfc_dict_attack_worker_callback dev ctxj .requestKey).ctx.dict_keys_current = j + 1 ∧
      ((nfc_dict_attack_worker_callback dev ctxj .requestKey).sent
          = [NfcCustomEvent.dictAttackDataUpdate] ↔ (j + 1) % 10 = 0)) ∧
    (keys.length ≤ j →
      (nfc_dict_attack_worker_callback dev ctxj .requestKey).key_request
          = some { key := 0, key_provided := false } ∧
      (nfc_dict_attack_worker_callback dev ctxj .requestKey).ctx = ctxj ∧
      ctxj.dict_keys_current = keys.length) := by
  have hspec := workerIterKey_spec dev keys j ctx0 (by rw [h0]) (by rw [h0, hc]) (by omega)
  rw [hc] at hspec
  simp only [Nat.zero_add] at hspec
  rw [hspec] at hj
  subst hj
  constructor
  · intro hlt
    have hmin : min j keys.length = j := by omega
    have hget : (keys[j]? : Option MfClassicKey) = some (keys.get ⟨j, hlt⟩) :=
      List.getElem?_eq_getElem hlt
    refine ⟨?_, by simp [hmin], ?_, ?_⟩
    · simp [nfc_dict_attack_worker_callback, keys_dict_get_next_key, hmin, hget]
    · simp [nfc_dict_attack_worker_callback, keys_dict_get_next_key, hmin, hget]
    · by_cases hten : (j + 1) % 10 = 0
      · simp [nfc_dict_attack_worker_callback, keys_dict_get_next_key, hmin, hget, hten]
      · simp [nfc_dict_attack_worker_callback, keys_dict_get_next_key, hmin, hget, hten]
  · intro hge
    have hmin : min j keys.length = keys.length := by omega
    have hget : (keys[keys.length]? : Option MfClassicKey) = none :=
      List.getElem?_eq_none (by omega)
    refine ⟨?_, ?_, by simp [hmin]⟩
    · simp [nfc_dict_attack_worker_callback, keys_dict_get_next_key, hmin, hget]
    · simp [nfc_dict_attack_worker_callback, keys_dict_get_next_key, hmin, hget]

/-- Fixture card data for witnesses and counterexamples. -/
def dev0 : MfClassicData :=
  { total_sectors := 16, read_sectors := 1, found_keys := 2, fully_read := false }

/-- Fixture context: rewound three-key dictionary. -/
def ctx3 : NfcMfClassicDictAttackContext :=
  { initialContext with dict := { keys := [11, 22, 33], cursor := 0 } }

/-- Witness for C1: against the dictionary `[11, 22, 33]`, the second
`requestKey` event (after one prior) supplies key 22 with the validity
flag, takes `dict_keys_current` from 1 to 2, and posts no notification
(2 is not a multiple of 10); after three events a fourth reports no key
and changes nothing. -/
theorem requestKey_supplies_candidates_in_order_witness :
    ((nfc_dict_attack_worker_callback dev0 (workerIterKey dev0 1 ctx3) .requestKey).key_request
        = some { key := 22, key_provided := true } ∧
      (nfc_dict_attack_worker_callback dev0 (workerIterKey dev0 1 ctx3) .requestKey).ctx.dict_keys_current = 2 ∧
      (nfc_dict_attack_worker_callback dev0 (workerIterKey dev0 1 ctx3) .requestKey).sent = []) ∧
    ((nfc_dict_attack_worker_callback dev0 (workerIterKey dev0 3 ctx3) .requestKey).key_request
        = some { key := 0, key_provided := false } ∧
      (nfc_dict_attack_worker_callback dev0 (workerIterKey dev0 3 ctx3) .requestKey).ctx
        = workerIterKey dev0 3 ctx3) := by
  have h1 := (requestKey_supplies_candidates_in_order dev0 [11, 22, 33] ctx3 rfl rfl 1
    (workerIterKey dev0 1 ctx3) rfl).1 (by decide)
  have h3 := (requestKey_supplies_candidates_in_order dev0 [11, 22, 33] ctx3 rfl rfl 3
    (workerIterKey dev0 3 ctx3) rfl).2 (by decide)
  refine ⟨⟨h1.1, h1.2.2.1, ?_⟩, h3.1, h3.2.1⟩
  have := h1.2.2.2
  revert this
  decide

/-- The cursor bookkeeping invariant maintained by every scene step: the
dictionary cursor mirrors `dict_keys_current`, stays within the key list,
and `dict_keys_total` caches the open dictionary's size. -/
def dictCursorInv (s : SceneState) : Prop :=
  s.ctx.dict.cursor = s.ctx.dict_keys_current ∧
  s.ctx.dict.cursor ≤ s.ctx.dict.keys.length ∧
  s.ctx.dict_keys_total = s.ctx.dict.keys.length

/-- Phase entry leaves a rewound dictionary, `dict_keys_current = 0` and a
freshly cached total, for any incoming state. -/
theorem prepare_view_establishes_inv (env : Env) (s : SceneState) :
    dictCursorInv (nfc_scene_mf_classic_dict_attack_prepare_view env s) := by
  unfold dictCursorInv nfc_scene_mf_classic_dict_attack_prepare_view keys_dict_get_total_keys
  rcases hp : s.phase with _ | _
  · rcases hu : env.user_dict with _ | keys
    · simp [hp, hu]
    · by_cases hk : keys.length = 0
      · simp [hp, hu, hk]
      · simp [hp, hu, hk]
  · simp [hp]

/-- Every scene step preserves the cursor bookkeeping invariant. -/
theorem sceneStep_preserves_inv (env : Env) (s : SceneState) (e : Step)
    (h : dictCursorInv s) : dictCursorInv (sceneStep env s e) := by
  obtain ⟨h1, h2, h3⟩ := h
  unfold sceneStep
  by_cases hc : s.concluded
  · simpa [hc] using ⟨h1, h2, h3⟩
  · simp only [hc, if_false, Bool.false_eq_true]
    cases e with
    | poller pe =>
        cases pe with
        | cardDetected =>
            simpa [nfc_dict_attack_worker_callback,
              nfc_scene_mf_classic_dict_attack_on_event, dictCursorInv] using ⟨h1, h2, h3⟩
        | cardLost =>
            simpa [nfc_dict_attack_worker_callback,
              nfc_scene_mf_classic_dict_attack_on_event, dictCursorInv] using ⟨h1, h2, h3⟩
        | requestMode =>
            simpa [nfc_dict_attack_worker_callback,
              nfc_scene_mf_classic_dict_attack_on_event, dictCursorInv] using ⟨h1, h2, h3⟩
        | requestKey =>
            by_cases hcur : s.ctx.dict.cursor < s.ctx.dict.keys.length
            · have hget : s.ctx.dict.keys[s.ctx.dict.cursor]?
                  = some (s.ctx.dict.keys.get ⟨s.ctx.dict.cursor, hcur⟩) :=
                List.getElem?_eq_getElem hcur
              by_cases hten : (s.ctx.dict_keys_current + 1) % 10 = 0
              · simp only [nfc_dict_attack_worker_callback, keys_dict_get_next_key, hget, hten,
                  if_true, List.foldl_cons, List.foldl_nil,
                  nfc_scene_mf_classic_dict_attack_on_event, dictCursorInv]
                exact ⟨by simp [h1], by simpa using hcur, by simpa using h3⟩
              · simp only [nfc_dict_attack_worker_callback, keys_dict_get_next_key, hget, hten,
                  if_false, List.foldl_nil, dictCursorInv]
                exact ⟨by simp [h1], by simpa using hcur, by simpa using h3⟩
            · have hget : s.ctx.dict.keys[s.ctx.dict.cursor]? = none :=
                List.getElem?_eq_none (by omega)
              simp only [nfc_dict_attack_worker_callback, keys_dict_get_next_key, hget,
                List.foldl_nil, dictCursorInv]
              exact ⟨by simpa using h1, by simpa using h2, by simpa using h3⟩
        | dataUpdate u =>
            simpa [nfc_dict_attack_worker_callback,
              nfc_scene_mf_classic_dict_attack_on_event, dictCursorInv] using ⟨h1, h2, h3⟩
        | nextSector cs =>
            simpa [nfc_dict_attack_worker_callback, keys_dict_rewind,
              nfc_scene_mf_classic_dict_attack_on_event, dictCursorInv] using h3
        | foundKeyA =>
            simpa [nfc_dict_attack_worker_callback,
              nfc_scene_mf_classic_dict_attack_on_event, dictCursorInv] using ⟨h1, h2, h3⟩
        | foundKeyB =>
            simpa [nfc_dict_attack_worker_callback,
              nfc_scene_mf_classic_dict_attack_on_event, dictCursorInv] using ⟨h1, h2, h3⟩
        | keyAttackStart cs =>
            simpa [nfc_dict_attack_worker_callback,
              nfc_scene_mf_classic_dict_attack_on_event, dictCursorInv] using ⟨h1, h2, h3⟩
        | keyAttackStop =>
            simpa [nfc_dict_attack_worker_callback, keys_dict_rewind,
              nfc_scene_mf_classic_dict_attack_on_event, dictCursorInv] using h3
        | success snap =>
            by_cases hp : s.phase = DictAttackState.userDictInProgress
            · simpa [nfc_dict_attack_worker_callback,
                nfc_scene_mf_classic_dict_attack_on_event, hp, dictAttackAdvanceToSystem,
                dictCursorInv] using prepare_view_establishes_inv env _
            · simpa [nfc_dict_attack_worker_callback,
                nfc_scene_mf_classic_dict_attack_on_event, hp, dictAttackFinalize,
                dictCursorInv] using ⟨h1, h2, h3⟩
    | skip snap =>
        by_cases hp : s.phase = DictAttackState.userDictInProgress
        · by_cases hcard : s.ctx.is_card_present
          · simpa [nfc_scene_mf_classic_dict_attack_on_event, hp, hcard,
              dictAttackAdvanceToSystem, dictCursorInv]
              using prepare_view_establishes_inv env _
          · simpa [nfc_scene_mf_classic_dict_attack_on_event, hp, hcard,
              dictAttackFinalize, dictCursorInv] using ⟨h1, h2, h3⟩
        · simpa [nfc_scene_mf_classic_dict_attack_on_event, hp,
            dictAttackFinalize, dictCursorInv] using ⟨h1, h2, h3⟩

/-- The invariant carries over whole traces. -/
theorem sceneRun_preserves_inv (env : Env) (es : List Step) :
    ∀ s : SceneState, dictCursorInv s → dictCursorInv (sceneRun env s es) := by
  induction es with
  | nil => intro s h; simpa [sceneRun] using h
  | cons e es ih =>
      intro s h
      have hstep := sceneStep_preserves_inv env s e h
      simpa [sceneRun] using ih (sceneStep env s e) hstep

/-- C9: in every state reachable from scene entry by any trace of session
events and skip presses, the cursor counter never exceeds the cached
total key count of the currently open dictionary. -/
theorem dict_keys_current_le_total_invariant (env : Env) (es : List Step) :
    (sceneRun env (nfc_scene_mf_classic_dict_attack_on_enter env) es).ctx.dict_keys_current ≤
      (sceneRun env (nfc_scene_mf_classic_dict_attack_on_enter env) es).ctx.dict_keys_total := by
  have hinit : dictCursorInv (nfc_scene_mf_classic_dict_attack_on_enter env) := by
    have := prepare_view_establishes_inv env
      { phase := DictAttackState.userDictInProgress,
        ctx := initialContext,
        device_data := env.initial_device_data,
        poller_running := false, sessions_started := 0, open_handles := 0,
        set_data_count := 0, concluded := false, header := DictHeader.blank }
    simpa [nfc_scene_mf_classic_dict_attack_on_enter, dictCursorInv] using this
  obtain ⟨h1, h2, h3⟩ := sceneRun_preserves_inv env es _ hinit
  omega

/-- C2: a `success` event while the user dictionary pass is in progress
does not conclude the scene — the poller session is replaced
(`sessions_started` grows by one and a session is running afterwards),
the dictionary handle is freed and a new one opened (`open_handles` drops
then rises by one), the phase becomes the system phase with entry actions
re-run, so the open dictionary is the rewound system dictionary,
`dict_keys_total` is recomputed as its size (not carried over) and
`dict_keys_current` is reset to 0. A `success` event in the system phase
concludes the scene. -/
theorem success_in_user_phase_escalates (env : Env) (s : SceneState)
    (snap : MfClassicData) (hc : s.concluded = false)
    (t : SceneState) (ht : sceneStep env s (Step.poller (.success snap)) = t) :
    (s.phase = DictAttackState.userDictInProgress →
      t.concluded = false ∧
      t.phase = DictAttackState.systemDictInProgress ∧
      t.poller_running = true ∧
      t.sessions_started = s.sessions_started + 1 ∧
      t.ctx.dict = { keys := env.system_dict, cursor := 0 } ∧
      t.ctx.dict_keys_total = env.system_dict.length ∧
      t.ctx.dict_keys_current = 0 ∧
      t.open_handles = s.open_handles - 1 + 1 ∧
      t.header = DictHeader.systemDictionary) ∧
    (s.phase = DictAttackState.systemDictInProgress →
      t.concluded = true ∧ t.phase = s.phase) := by
  subst ht
  constructor
  · intro hp
    simp [sceneStep, hc, nfc_dict_attack_worker_callback,
      nfc_scene_mf_classic_dict_attack_on_event, hp, dictAttackAdvanceToSystem,
      nfc_scene_mf_classic_dict_attack_prepare_view, keys_dict_get_total_keys]
  · intro hp
    simp [sceneStep, hc, nfc_dict_attack_worker_callback,
      nfc_scene_mf_classic_dict_attack_on_event, hp, dictAttackFinalize]

/-- Witness for C2: in a concrete run whose user dictionary holds three
keys, a first `success` escalates to the system phase without concluding
and recomputes the totals from the two-key system dictionary; a second
`success` concludes. -/
theorem success_in_user_phase_escalates_witness :
    ((sceneStep
        { user_dict := some [11, 22, 33], system_dict := [44, 55],
          initial_device_data := dev0 }
        (nfc_scene_mf_classic_dict_attack_on_enter
          { user_dict := some [11, 22, 33], system_dict := [44, 55],
            initial_device_data := dev0 })
        (Step.poller (.success dev0))).concluded = false ∧
      (sceneStep
        { user_dict := some [11, 22, 33], system_dict := [44, 55],
          initial_device_data := dev0 }
        (nfc_scene_mf_classic_dict_attack_on_enter
          { user_dict := some [11, 22, 33], system_dict := [44, 55],
            initial_device_data := dev0 })
        (Step.poller (.success dev0))).phase = DictAttackState.systemDictInProgress ∧
      (sceneStep
        { user_dict := some [11, 22, 33], system_dict := [44, 55],
          initial_device_data := dev0 }
        (nfc_scene_mf_classic_dict_attack_on_enter
          { user_dict := some [11, 22, 33], system_dict := [44, 55],
            initial_device_data := dev0 })
        (Step.poller (.success dev0))).ctx.dict_keys_total = 2) := by
  have h := (success_in_user_phase_escalates
    { user_dict := some [11, 22, 33], system_dict := [44, 55],
      initial_device_data := dev0 }
    (nfc_scene_mf_classic_dict_attack_on_enter
      { user_dict := some [11, 22, 33], system_dict := [44, 55],
        initial_device_data := dev0 })
    dev0 (by decide) _ rfl).1 (by decide)
  exact ⟨h.1, h.2.1, by rw [h.2.2.2.2.2.1]; decide⟩

/-- C3: a skip press in the user phase with a card present behaves like
the user-phase `success` transition — escalate to the system phase with a
fresh session, without concluding; in the user phase with no card present
it concludes immediately without starting another session; in the system
phase it always concludes. -/
theorem skip_event_phase_and_card_cases (env : Env) (s : SceneState)
    (snap : MfClassicData) (hc : s.concluded = false)
    (t : SceneState) (ht : sceneStep env s (Step.skip snap) = t) :
    (s.phase = DictAttackState.userDictInProgress → s.ctx.is_card_present = true →
      t.concluded = false ∧
      t.phase = DictAttackState.systemDictInProgress ∧
      t.poller_running = true ∧
      t.sessions_started = s.sessions_started + 1 ∧
      t.ctx.dict = { keys := env.system_dict, cursor := 0 } ∧
      t.ctx.dict_keys_total = env.system_dict.length ∧
      t.ctx.dict_keys_current = 0) ∧
    (s.phase = DictAttackState.userDictInProgress → s.ctx.is_card_present = false →
      t.concluded = true ∧
      t.phase = s.phase ∧
      t.sessions_started = s.sessions_started) ∧
    (s.phase = DictAttackState.systemDictInProgress →
      t.concluded = true ∧
      t.sessions_started = s.sessions_started) := by
  subst ht
  refine ⟨?_, ?_, ?_⟩
  · intro hp hcard
    simp [sceneStep, hc, nfc_scene_mf_classic_dict_attack_on_event, hp, hcard,
      dictAttackAdvanceToSystem, nfc_scene_mf_classic_dict_attack_prepare_view,
      keys_dict_get_total_keys]
  · intro hp hcard
    simp [sceneStep, hc, nfc_scene_mf_classic_dict_attack_on_event, hp, hcard,
      dictAttackFinalize]
  · intro hp
    simp [sceneStep, hc, nfc_scene_mf_classic_dict_attack_on_event, hp,
      dictAttackFinalize]

/-- Fixture environment: three-key user dictionary, two-key system
dictionary. -/
def env0 : Env :=
  { user_dict := some [11, 22, 33], system_dict := [44, 55],
    initial_device_data := dev0 }

/-- Witness for C3: from scene entry on `env0` (no card seen yet, so
`is_card_present = false`), a skip concludes at once without a second
session; after a `cardDetected` event, a skip escalates to the system
phase without concluding; from the escalated state a further skip
concludes. -/
theorem skip_event_phase_and_card_cases_witness :
    ((sceneStep env0 (nfc_scene_mf_classic_dict_attack_on_enter env0)
        (Step.skip dev0)).concluded = true ∧
      (sceneStep env0 (nfc_scene_mf_classic_dict_attack_on_enter env0)
        (Step.skip dev0)).sessions_started
        = (nfc_scene_mf_classic_dict_attack_on_enter env0).sessions_started) ∧
    ((sceneStep env0
        (sceneRun env0 (nfc_scene_mf_classic_dict_attack_on_enter env0)
          [Step.poller .cardDetected])
        (Step.skip dev0)).concluded = false ∧
      (sceneStep env0
        (sceneRun env0 (nfc_scene_mf_classic_dict_attack_on_enter env0)
          [Step.poller .cardDetected])
        (Step.skip dev0)).phase = DictAttackState.systemDictInProgress) ∧
    (sceneStep env0
        (sceneStep env0
          (sceneRun env0 (nfc_scene_mf_classic_dict_attack_on_enter env0)
            [Step.poller .cardDetected])
          (Step.skip dev0))
        (Step.skip dev0)).concluded = true := by
  have h1 := (skip_event_phase_and_card_cases env0
    (nfc_scene_mf_classic_dict_attack_on_enter env0) dev0 (by decide) _ rfl).2.1
    (by decide) (by decide)
  have h2 := (skip_event_phase_and_card_cases env0
    (sceneRun env0 (nfc_scene_mf_classic_dict_attack_on_enter env0)
      [Step.poller .cardDetected]) dev0 (by decide) _ rfl).1
    (by decide) (by decide)
  have h3 := (skip_event_phase_and_card_cases env0
    (sceneStep env0
      (sceneRun env0 (nfc_scene_mf_classic_dict_attack_on_enter env0)
        [Step.poller .cardDetected])
      (Step.skip dev0)) dev0 h2.1 _ rfl).2.2 h2.2.1
  exact ⟨⟨h1.1, h1.2.2⟩, ⟨h2.1, h2.2.1⟩, h3.1⟩

/-- C10: every skip press, in either phase and whatever the card-presence
flag, persists the poller's card data at that moment to the device record
(`nfc_device_set_data` before branching); the step then either concludes
the scene or moves it to the system phase with a fresh session. -/
theorem skip_persists_poller_data (env : Env) (s : SceneState)
    (snap : MfClassicData) (hc : s.concluded = false)
    (t : SceneState) (ht : sceneStep env s (Step.skip snap) = t) :
    t.device_data = snap ∧
    (t.concluded = true ∨
      (t.phase = DictAttackState.systemDictInProgress ∧
        t.sessions_started = s.sessions_started + 1)) := by
  subst ht
  by_cases hp : s.phase = DictAttackState.userDictInProgress
  · by_cases hcard : s.ctx.is_card_present
    · constructor
      · simp [sceneStep, hc, nfc_scene_mf_classic_dict_attack_on_event, hp, hcard,
          dictAttackAdvanceToSystem, nfc_scene_mf_classic_dict_attack_prepare_view]
      · right
        simp [sceneStep, hc, nfc_scene_mf_classic_dict_attack_on_event, hp, hcard,
          dictAttackAdvanceToSystem, nfc_scene_mf_classic_dict_attack_prepare_view]
    · constructor
      · simp [sceneStep, hc, nfc_scene_mf_classic_dict_attack_on_event, hp, hcard,
          dictAttackFinalize]
      · left
        simp [sceneStep, hc, nfc_scene_mf_classic_dict_attack_on_event, hp, hcard,
          dictAttackFinalize]
  · constructor
    · simp [sceneStep, hc, nfc_scene_mf_classic_dict_attack_on_event, hp,
        dictAttackFinalize]
    · left
      simp [sceneStep, hc, nfc_scene_mf_classic_dict_attack_on_event, hp,
        dictAttackFinalize]

/-- A distinct card snapshot used to observe persistence. -/
def snap1 : MfClassicData :=
  { total_sectors := 16, read_sectors := 9, found_keys := 18, fully_read := true }

/-- Witness for C10: skipping right after scene entry on `env0` persists
the snapshot `snap1` to the device record and concludes. -/
theorem skip_persists_poller_data_witness :
    (sceneStep env0 (nfc_scene_mf_classic_dict_attack_on_enter env0)
        (Step.skip snap1)).device_data = snap1 ∧
    ((sceneStep env0 (nfc_scene_mf_classic_dict_attack_on_enter env0)
        (Step.skip snap1)).concluded = true ∨
      ((sceneStep env0 (nfc_scene_mf_classic_dict_attack_on_enter env0)
          (Step.skip snap1)).phase = DictAttackState.systemDictInProgress ∧
        (sceneStep env0 (nfc_scene_mf_classic_dict_attack_on_enter env0)
            (Step.skip snap1)).sessions_started
          = (nfc_scene_mf_classic_dict_attack_on_enter env0).sessions_started + 1)) :=
  skip_persists_poller_data env0 (nfc_scene_mf_classic_dict_attack_on_enter env0)
    snap1 (by decide) _ rfl

/-- C5: when the user dictionary file is absent (presence check fails) or
holds zero keys, phase entry falls through to the system phase on the
normal path: any opened user-dictionary handle is released (exactly one
handle — the system dictionary — is open afterwards), the open dictionary
is the system one so no key request can ever be served from the user
dictionary, the totals are cached from the system dictionary, and the
scene starts its poller session as usual rather than reporting an
error. -/
theorem empty_or_absent_user_dict_skips_to_system (env : Env)
    (t : SceneState) (ht : nfc_scene_mf_classic_dict_attack_on_enter env = t) :
    (env.user_dict = none →
      t.phase = DictAttackState.systemDictInProgress ∧
      t.ctx.dict = { keys := env.system_dict, cursor := 0 } ∧
      t.open_handles = 1 ∧
      t.ctx.dict_keys_total = env.system_dict.length ∧
      t.ctx.dict_keys_current = 0 ∧
      t.poller_running = true ∧
      t.concluded = false ∧
      t.header = DictHeader.systemDictionary) ∧
    (∀ ks : List MfClassicKey, env.user_dict = some ks → ks.length = 0 →
      t.phase = DictAttackState.systemDictInProgress ∧
      t.ctx.dict = { keys := env.system_dict, cursor := 0 } ∧
      t.open_handles = 1 ∧
      t.ctx.dict_keys_total = env.system_dict.length ∧
      t.ctx.dict_keys_current = 0 ∧
      t.poller_running = true ∧
      t.concluded = false ∧
      t.header = DictHeader.systemDictionary) := by
  subst ht
  constructor
  · intro hu
    simp [nfc_scene_mf_classic_dict_attack_on_enter,
      nfc_scene_mf_classic_dict_attack_prepare_view, hu, keys_dict_get_total_keys]
  · intro ks hu hk
    simp [nfc_scene_mf_classic_dict_attack_on_enter,
      nfc_scene_mf_classic_dict_attack_prepare_view, hu, hk, keys_dict_get_total_keys]

/-- Witness for C5: with an absent user dictionary, and with a present
but empty one, entry lands in the system phase with one open handle and
the system dictionary's totals. -/
theorem empty_or_absent_user_dict_skips_to_system_witness :
    ((nfc_scene_mf_classic_dict_attack_on_enter
        { user_dict := none, system_dict := [44, 55],
          initial_device_data := dev0 }).phase
      = DictAttackState.systemDictInProgress ∧
      (nfc_scene_mf_classic_dict_attack_on_enter
        { user_dict := none, system_dict := [44, 55],
          initial_device_data := dev0 }).open_handles = 1) ∧
    ((nfc_scene_mf_classic_dict_attack_on_enter
        { user_dict := some [], system_dict := [44, 55],
          initial_device_data := dev0 }).phase
      = DictAttackState.systemDictInProgress ∧
      (nfc_scene_mf_classic_dict_attack_on_enter
        { user_dict := some [], system_dict := [44, 55],
          initial_device_data := dev0 }).ctx.dict_keys_total = 2) := by
  have h1 := (empty_or_absent_user_dict_skips_to_system
    { user_dict := none, system_dict := [44, 55], initial_device_data := dev0 }
    _ rfl).1 rfl
  have h2 := (empty_or_absent_user_dict_skips_to_system
    { user_dict := some [], system_dict := [44, 55], initial_device_data := dev0 }
    _ rfl).2 [] rfl rfl
  exact ⟨⟨h1.1, h1.2.2.1⟩, h2.1, by rw [h2.2.2.2.1]; decide⟩

/-- The steps on which the active dictionary is rewound: a `nextSector`
event, a `keyAttackStop` event, and the two phase-entry transitions (the
user-phase `success` and the user-phase skip with a card present). Steps
against a concluded scene process nothing. -/
def rewindStep (s : SceneState) : Step → Bool
  | Step.poller (.nextSector _) => !s.concluded
  | Step.poller .keyAttackStop => !s.concluded
  | Step.poller (.success _) =>
      !s.concluded && decide (s.phase = DictAttackState.userDictInProgress)
  | Step.skip _ =>
      !s.concluded && decide (s.phase = DictAttackState.userDictInProgress)
        && s.ctx.is_card_present
  | _ => false

/-- C6: `dict_keys_current` is set to 0 exactly by the rewinding steps —
`nextSector`, `keyAttackStop`, and phase entry (which also covers the
initial scene entry, third conjunct) — and no other step ever lowers it,
let alone resets it. -/
theorem dict_keys_current_reset_exactly_on_rewind (env : Env) (s : SceneState) (e : Step) :
    (rewindStep s e = true → (sceneStep env s e).ctx.dict_keys_current = 0) ∧
    (rewindStep s e = false →
      s.ctx.dict_keys_current ≤ (sceneStep env s e).ctx.dict_keys_current) ∧
    (nfc_scene_mf_classic_dict_attack_on_enter env).ctx.dict_keys_current = 0 := by
  refine ⟨?_, ?_, ?_⟩
  · intro hr
    by_cases hcon : s.concluded
    · exfalso
      cases e with
      | poller pe => cases pe <;> simp [rewindStep, hcon] at hr
      | skip snap => simp [rewindStep, hcon] at hr
    · cases e with
      | poller pe =>
          cases pe with
          | nextSector cs =>
              simp [sceneStep, hcon, nfc_dict_attack_worker_callback,
                nfc_scene_mf_classic_dict_attack_on_event]
          | keyAttackStop =>
              simp [sceneStep, hcon, nfc_dict_attack_worker_callback,
                nfc_scene_mf_classic_dict_attack_on_event]
          | success snap =>
              have hp : s.phase = DictAttackState.userDictInProgress := by
                simpa [rewindStep, hcon] using hr
              simp [sceneStep, hcon, nfc_dict_attack_worker_callback,
                nfc_scene_mf_classic_dict_attack_on_event, hp,
                dictAttackAdvanceToSystem,
                nfc_scene_mf_classic_dict_attack_prepare_view]
          | cardDetected => simp [rewindStep, hcon] at hr
          | cardLost => simp [rewindStep, hcon] at hr
          | requestMode => simp [rewindStep, hcon] at hr
          | requestKey => simp [rewindStep, hcon] at hr
          | dataUpdate u => simp [rewindStep, hcon] at hr
          | foundKeyA => simp [rewindStep, hcon] at hr
          | foundKeyB => simp [rewindStep, hcon] at hr
          | keyAttackStart cs => simp [rewindStep, hcon] at hr
      | skip snap =>
          have hp : s.phase = DictAttackState.userDictInProgress ∧
              s.ctx.is_card_present = true := by
            simpa [rewindStep, hcon] using hr
          simp [sceneStep, hcon, nfc_scene_mf_classic_dict_attack_on_event, hp.1, hp.2,
            dictAttackAdvanceToSystem, nfc_scene_mf_classic_dict_attack_prepare_view]
  · intro hr
    by_cases hcon : s.concluded
    · simp [sceneStep, hcon]
    · cases e with
      | poller pe =>
          cases pe with
          | nextSector cs => simp [rewindStep, hcon] at hr
          | keyAttackStop => simp [rewindStep, hcon] at hr
          | success snap =>
              have hp : ¬ s.phase = DictAttackState.userDictInProgress := by
                simpa [rewindStep, hcon] using hr
              simp [sceneStep, hcon, nfc_dict_attack_worker_callback,
                nfc_scene_mf_classic_dict_attack_on_event, hp, dictAttackFinalize]
          | cardDetected =>
              simp [sceneStep, hcon, nfc_dict_attack_worker_callback,
                nfc_scene_mf_classic_dict_attack_on_event]
          | cardLost =>
              simp [sceneStep, hcon, nfc_dict_attack_worker_callback,
                nfc_scene_mf_classic_dict_attack_on_event]
          | requestMode =>
              simp [sceneStep, hcon, nfc_dict_attack_worker_callback,
                nfc_scene_mf_classic_dict_attack_on_event]
          | requestKey =>
              by_cases hcur : s.ctx.dict.cursor < s.ctx.dict.keys.length
              · have hget : s.ctx.dict.keys[s.ctx.dict.cursor]?
                    = some (s.ctx.dict.keys.get ⟨s.ctx.dict.cursor, hcur⟩) :=
                  List.getElem?_eq_getElem hcur
                by_cases hten : (s.ctx.dict_keys_current + 1) % 10 = 0
                · simp [sceneStep, hcon, nfc_dict_attack_worker_callback,
                    keys_dict_get_next_key, hget, hten,
                    nfc_scene_mf_classic_dict_attack_on_event]
                · simp [sceneStep, hcon, nfc_dict_attack_worker_callback,
                    keys_dict_get_next_key, hget, hten]
              · have hget : s.ctx.dict.keys[s.ctx.dict.cursor]? = none :=
                  List.getElem?_eq_none (by omega)
                simp [sceneStep, hcon, nfc_dict_attack_worker_callback,
                  keys_dict_get_next_key, hget]
          | dataUpdate u =>
              simp [sceneStep, hcon, nfc_dict_attack_worker_callback,
                nfc_scene_mf_classic_dict_attack_on_event]
          | foundKeyA =>
              simp [sceneStep, hcon, nfc_dict_attack_worker_callback,
                nfc_scene_mf_classic_dict_attack_on_event]
          | foundKeyB =>
              simp [sceneStep, hcon, nfc_dict_attack_worker_callback,
                nfc_scene_mf_classic_dict_attack_on_event]
          | keyAttackStart cs =>
              simp [sceneStep, hcon, nfc_dict_attack_worker_callback,
                nfc_scene_mf_classic_dict_attack_on_event]
      | skip snap =>
          by_cases hp : s.phase = DictAttackState.userDictInProgress
          · have hcard : s.ctx.is_card_present = false := by
              rcases Bool.eq_false_or_eq_true s.ctx.is_card_present with h | h
              · exfalso
                simp [rewindStep, hcon, hp, h] at hr
              · exact h
            simp [sceneStep, hcon, nfc_scene_mf_classic_dict_attack_on_event, hp, hcard,
              dictAttackFinalize]
          · simp [sceneStep, hcon, nfc_scene_mf_classic_dict_attack_on_event, hp,
              dictAttackFinalize]
  · unfold nfc_scene_mf_classic_dict_attack_on_enter
      nfc_scene_mf_classic_dict_attack_prepare_view
    rcases hu : env.user_dict with _ | ks
    · simp [hu]
    · by_cases hk : ks.length = 0 <;> simp [hu, hk]

/-- Witness for C6: on a concrete non-concluded state with
`dict_keys_current = 2` (two keys pulled on `env0`), a `nextSector`
rewind step resets the counter to 0, while a `foundKeyA` step (not a
rewind step) does not lower it. -/
theorem dict_keys_current_reset_exactly_on_rewind_witness :
    (rewindStep
        (sceneRun env0 (nfc_scene_mf_classic_dict_attack_on_enter env0)
          [Step.poller .requestKey, Step.poller .requestKey])
        (Step.poller (.nextSector 1)) = true ∧
      (sceneStep env0
        (sceneRun env0 (nfc_scene_mf_classic_dict_attack_on_enter env0)
          [Step.poller .requestKey, Step.poller .requestKey])
        (Step.poller (.nextSector 1))).ctx.dict_keys_current = 0) ∧
    (rewindStep
        (sceneRun env0 (nfc_scene_mf_classic_dict_attack_on_enter env0)
          [Step.poller .requestKey, Step.poller .requestKey])
        (Step.poller .foundKeyA) = false ∧
      (sceneRun env0 (nfc_scene_mf_classic_dict_attack_on_enter env0)
          [Step.poller .requestKey, Step.poller .requestKey]).ctx.dict_keys_current ≤
        (sceneStep env0
          (sceneRun env0 (nfc_scene_mf_classic_dict_attack_on_enter env0)
            [Step.poller .requestKey, Step.poller .requestKey])
          (Step.poller .foundKeyA)).ctx.dict_keys_current) := by
  have h1 := (dict_keys_current_reset_exactly_on_rewind env0
    (sceneRun env0 (nfc_scene_mf_classic_dict_attack_on_enter env0)
      [Step.poller .requestKey, Step.poller .requestKey])
    (Step.poller (.nextSector 1))).1 (by decide)
  have h2 := (dict_keys_current_reset_exactly_on_rewind env0
    (sceneRun env0 (nfc_scene_mf_classic_dict_attack_on_enter env0)
      [Step.poller .requestKey, Step.poller .requestKey])
    (Step.poller .foundKeyA)).2.1 (by decide)
  exact ⟨⟨by decide, h1⟩, by decide, h2⟩

/-- A session bulk snapshot used to drive the context away from the
device record's aggregates. -/
def u7 : MfClassicPollerEventDataUpdate :=
  { sectors_read := 7, keys_found := 9, current_sector := 3,
    nested_phase := 1, prng_type := 2, backdoor := 1,
    nested_target_key := 5, msb_count := 6 }

/-- Counterexample to C7 as stated: after a `dataUpdate` has set
`sectors_read = 7` and `keys_found = 9`, a `foundKeyA` event leaves those
exact values in place — it does not recompute the aggregates from the
card data in scope (the device record reads 1 sector read, 2 keys found,
via `mf_classic_get_read_sectors_and_keys` at `requestMode` time). The
handler posts the notification only; no counter recomputation happens. -/
theorem found_key_recompute_counterexample :
    (sceneRun env0 (nfc_scene_mf_classic_dict_attack_on_enter env0)
        [Step.poller (.dataUpdate u7), Step.poller .foundKeyA]).ctx.sectors_read = 7 ∧
    (sceneRun env0 (nfc_scene_mf_classic_dict_attack_on_enter env0)
        [Step.poller (.dataUpdate u7), Step.poller .foundKeyA]).ctx.keys_found = 9 ∧
    (sceneRun env0 (nfc_scene_mf_classic_dict_attack_on_enter env0)
        [Step.poller (.dataUpdate u7), Step.poller .foundKeyA]).device_data.read_sectors = 1 ∧
    (sceneRun env0 (nfc_scene_mf_classic_dict_attack_on_enter env0)
        [Step.poller (.dataUpdate u7), Step.poller .foundKeyA]).device_data.found_keys = 2 ∧
    ¬((sceneRun env0 (nfc_scene_mf_classic_dict_attack_on_enter env0)
        [Step.poller (.dataUpdate u7), Step.poller .foundKeyA]).ctx.sectors_read =
      (sceneRun env0 (nfc_scene_mf_classic_dict_attack_on_enter env0)
        [Step.poller (.dataUpdate u7), Step.poller .foundKeyA]).device_data.read_sectors) := by
  decide

/-- C7 amended: on every `foundKeyA` and `foundKeyB` event the
orchestrator only notifies the observer (posting the data-update custom
event, which refreshes the view from the stored counters); the whole
scene state — `sectors_read` and `keys_found` included — is unchanged,
and no device-record write happens. The counters themselves are updated
only by `requestMode` and `dataUpdate` events. -/
theorem found_key_events_only_notify (env : Env) (s : SceneState)
    (hc : s.concluded = false) :
    (sceneStep env s (Step.poller .foundKeyA) = s ∧
      (nfc_dict_attack_worker_callback s.device_data s.ctx .foundKeyA).sent
        = [NfcCustomEvent.dictAttackDataUpdate] ∧
      (nfc_dict_attack_worker_callback s.device_data s.ctx .foundKeyA).ctx = s.ctx ∧
      (nfc_dict_attack_worker_callback s.device_data s.ctx .foundKeyA).set_data_calls = 0) ∧
    (sceneStep env s (Step.poller .foundKeyB) = s ∧
      (nfc_dict_attack_worker_callback s.device_data s.ctx .foundKeyB).sent
        = [NfcCustomEvent.dictAttackDataUpdate] ∧
      (nfc_dict_attack_worker_callback s.device_data s.ctx .foundKeyB).ctx = s.ctx ∧
      (nfc_dict_attack_worker_callback s.device_data s.ctx .foundKeyB).set_data_calls = 0) := by
  cases s with
  | mk ph cx dd pr ss oh sdc con hd =>
      replace hc : con = false := hc
      subst hc
      constructor
      · refine ⟨?_, rfl, rfl, rfl⟩
        simp [sceneStep, nfc_dict_attack_worker_callback,
          nfc_scene_mf_classic_dict_attack_on_event]
      · refine ⟨?_, rfl, rfl, rfl⟩
        simp [sceneStep, nfc_dict_attack_worker_callback,
          nfc_scene_mf_classic_dict_attack_on_event]

/-- Witness for amended C7: on the concrete post-`dataUpdate` state of
the counterexample run, a `foundKeyA` step is the identity on the scene
state and posts exactly the notification. -/
theorem found_key_events_only_notify_witness :
    sceneStep env0
        (sceneRun env0 (nfc_scene_mf_classic_dict_attack_on_enter env0)
          [Step.poller (.dataUpdate u7)])
        (Step.poller .foundKeyA)
      = sceneRun env0 (nfc_scene_mf_classic_dict_attack_on_enter env0)
          [Step.poller (.dataUpdate u7)] ∧
    (nfc_dict_attack_worker_callback
        (sceneRun env0 (nfc_scene_mf_classic_dict_attack_on_enter env0)
          [Step.poller (.dataUpdate u7)]).device_data
        (sceneRun env0 (nfc_scene_mf_classic_dict_attack_on_enter env0)
          [Step.poller (.dataUpdate u7)]).ctx .foundKeyA).sent
      = [NfcCustomEvent.dictAttackDataUpdate] := by
  have h := (found_key_events_only_notify env0
    (sceneRun env0 (nfc_scene_mf_classic_dict_attack_on_enter env0)
      [Step.poller (.dataUpdate u7)]) (by decide)).1
  exact ⟨h.1, h.2.1⟩

/-- The steps whose handlers call `nfc_device_set_data`: every `success`
event and every skip press. -/
def isPersistStep : Step → Bool
  | Step.poller (.success _) => true
  | Step.skip _ => true
  | _ => false

/-- Counterexample to C8 as stated: on `env0` (non-empty user
dictionary), the very first `success` — during the user-dictionary pass,
with the run not concluded — already persists the card data once, and a
run that then concludes through the final `success` has persisted
twice, not exactly once. -/
theorem set_data_only_at_final_success_counterexample :
    (sceneRun env0 (nfc_scene_mf_classic_dict_attack_on_enter env0)
        [Step.poller (.success snap1)]).set_data_count = 1 ∧
    (sceneRun env0 (nfc_scene_mf_classic_dict_attack_on_enter env0)
        [Step.poller (.success snap1)]).concluded = false ∧
    (sceneRun env0 (nfc_scene_mf_classic_dict_attack_on_enter env0)
        [Step.poller (.success snap1), Step.poller (.success snap1)]).set_data_count = 2 ∧
    (sceneRun env0 (nfc_scene_mf_classic_dict_attack_on_enter env0)
        [Step.poller (.success snap1), Step.poller (.success snap1)]).concluded = true := by
  decide

/-- C8 amended: `nfc_device_set_data` is invoked exactly once per
`success` event — in either phase, so also during the user-dictionary
pass — and exactly once per skip press, and on no other event. -/
theorem set_data_on_every_success_and_skip (env : Env) (s : SceneState) (e : Step)
    (hc : s.concluded = false) :
    (sceneStep env s e).set_data_count
      = s.set_data_count + (if isPersistStep e then 1 else 0) := by
  cases e with
  | poller pe =>
      cases pe with
      | cardDetected =>
          simp [sceneStep, hc, nfc_dict_attack_worker_callback, isPersistStep,
            nfc_scene_mf_classic_dict_attack_on_event]
      | cardLost =>
          simp [sceneStep, hc, nfc_dict_attack_worker_callback, isPersistStep,
            nfc_scene_mf_classic_dict_attack_on_event]
      | requestMode =>
          simp [sceneStep, hc, nfc_dict_attack_worker_callback, isPersistStep,
            nfc_scene_mf_classic_dict_attack_on_event]
      | requestKey =>
          by_cases hcur : s.ctx.dict.cursor < s.ctx.dict.keys.length
          · have hget : s.ctx.dict.keys[s.ctx.dict.cursor]?
                = some (s.ctx.dict.keys.get ⟨s.ctx.dict.cursor, hcur⟩) :=
              List.getElem?_eq_getElem hcur
            by_cases hten : (s.ctx.dict_keys_current + 1) % 10 = 0
            · simp [sceneStep, hc, nfc_dict_attack_worker_callback,
                keys_dict_get_next_key, hget, hten, isPersistStep,
                nfc_scene_mf_classic_dict_attack_on_event]
            · simp [sceneStep, hc, nfc_dict_attack_worker_callback,
                keys_dict_get_next_key, hget, hten, isPersistStep]
          · have hget : s.ctx.dict.keys[s.ctx.dict.cursor]? = none :=
              List.getElem?_eq_none (by omega)
            simp [sceneStep, hc, nfc_dict_attack_worker_callback,
              keys_dict_get_next_key, hget, isPersistStep]
      | dataUpdate u =>
          simp [sceneStep, hc, nfc_dict_attack_worker_callback, isPersistStep,
            nfc_scene_mf_classic_dict_attack_on_event]
      | nextSector cs =>
          simp [sceneStep, hc, nfc_dict_attack_worker_callback, isPersistStep,
            nfc_scene_mf_classic_dict_attack_on_event]
      | foundKeyA =>
          simp [sceneStep, hc, nfc_dict_attack_worker_callback, isPersistStep,
            nfc_scene_mf_classic_dict_attack_on_event]
      | foundKeyB =>
          simp [sceneStep, hc, nfc_dict_attack_worker_callback, isPersistStep,
            nfc_scene_mf_classic_dict_attack_on_event]
      | keyAttackStart cs =>
          simp [sceneStep, hc, nfc_dict_attack_worker_callback, isPersistStep,
            nfc_scene_mf_classic_dict_attack_on_event]
      | keyAttackStop =>
          simp [sceneStep, hc, nfc_dict_attack_worker_callback, isPersistStep,
            nfc_scene_mf_classic_dict_attack_on_event]
      | success snap =>
          by_cases hp : s.phase = DictAttackState.userDictInProgress
          · simp [sceneStep, hc, nfc_dict_attack_worker_callback, isPersistStep,
              nfc_scene_mf_classic_dict_attack_on_event, hp,
              dictAttackAdvanceToSystem, nfc_scene_mf_classic_dict_attack_prepare_view]
          · simp [sceneStep, hc, nfc_dict_attack_worker_callback, isPersistStep,
              nfc_scene_mf_classic_dict_attack_on_event, hp, dictAttackFinalize]
  | skip snap =>
      by_cases hp : s.phase = DictAttackState.userDictInProgress
      · by_cases hcard : s.ctx.is_card_present
        · simp [sceneStep, hc, nfc_scene_mf_classic_dict_attack_on_event, hp, hcard,
            isPersistStep, dictAttackAdvanceToSystem,
            nfc_scene_mf_classic_dict_attack_prepare_view]
        · simp [sceneStep, hc, nfc_scene_mf_classic_dict_attack_on_event, hp, hcard,
            isPersistStep, dictAttackFinalize]
      · simp [sceneStep, hc, nfc_scene_mf_classic_dict_attack_on_event, hp,
          isPersistStep, dictAttackFinalize]

/-- Witness for amended C8: from scene entry on `env0`, a `requestKey`
step persists nothing and a skip step persists exactly once. -/
theorem set_data_on_every_success_and_skip_witness :
    (sceneStep env0 (nfc_scene_mf_classic_dict_attack_on_enter env0)
        (Step.poller .requestKey)).set_data_count
      = (nfc_scene_mf_classic_dict_attack_on_enter env0).set_data_count + 0 ∧
    (sceneStep env0 (nfc_scene_mf_classic_dict_attack_on_enter env0)
        (Step.skip snap1)).set_data_count
      = (nfc_scene_mf_classic_dict_attack_on_enter env0).set_data_count + 1 := by
  have h1 := set_data_on_every_success_and_skip env0
    (nfc_scene_mf_classic_dict_attack_on_enter env0) (Step.poller .requestKey) (by decide)
  have h2 := set_data_on_every_success_and_skip env0
    (nfc_scene_mf_classic_dict_attack_on_enter env0) (Step.skip snap1) (by decide)
  exact ⟨by simpa [isPersistStep] using h1, by simpa [isPersistStep] using h2⟩

/-- Counterexample to C4 as stated: drive `nested_target_key` and
`msb_count` to nonzero values with a `dataUpdate`, then tear the scene
down — both fields survive teardown nonzero, so not every
`AttackProgress` field is at its zero/unknown default afterwards. -/
theorem teardown_reset_counterexample :
    (nfc_scene_mf_classic_dict_attack_on_exit
        (sceneRun env0 (nfc_scene_mf_classic_dict_attack_on_enter env0)
          [Step.poller (.dataUpdate u7)])).ctx.nested_target_key ≠ 0 ∧
    (nfc_scene_mf_classic_dict_attack_on_exit
        (sceneRun env0 (nfc_scene_mf_classic_dict_attack_on_enter env0)
          [Step.poller (.dataUpdate u7)])).ctx.msb_count ≠ 0 := by
  decide

/-- C4 amended: teardown, from any state, resets every `AttackProgress`
field the C code assigns — all of them except `nested_target_key` and
`msb_count`, which it leaves untouched — to its zero/unknown default,
resets the phase to the user phase, clears `is_card_present`, stops the
poller and releases the dictionary handle. -/
theorem teardown_resets_fields_except_nested_target (s : SceneState) :
    (nfc_scene_mf_classic_dict_attack_on_exit s).ctx.current_sector = 0 ∧
    (nfc_scene_mf_classic_dict_attack_on_exit s).ctx.sectors_total = 0 ∧
    (nfc_scene_mf_classic_dict_attack_on_exit s).ctx.sectors_read = 0 ∧
    (nfc_scene_mf_classic_dict_attack_on_exit s).ctx.keys_found = 0 ∧
    (nfc_scene_mf_classic_dict_attack_on_exit s).ctx.dict_keys_total = 0 ∧
    (nfc_scene_mf_classic_dict_attack_on_exit s).ctx.dict_keys_current = 0 ∧
    (nfc_scene_mf_classic_dict_attack_on_exit s).ctx.is_key_attack = false ∧
    (nfc_scene_mf_classic_dict_attack_on_exit s).ctx.key_attack_current_sector = 0 ∧
    (nfc_scene_mf_classic_dict_attack_on_exit s).ctx.is_card_present = false ∧
    (nfc_scene_mf_classic_dict_attack_on_exit s).ctx.nested_phase = 0 ∧
    (nfc_scene_mf_classic_dict_attack_on_exit s).ctx.prng_type = 0 ∧
    (nfc_scene_mf_classic_dict_attack_on_exit s).ctx.backdoor = 0 ∧
    (nfc_scene_mf_classic_dict_attack_on_exit s).phase
      = DictAttackState.userDictInProgress ∧
    (nfc_scene_mf_classic_dict_attack_on_exit s).poller_running = false ∧
    (nfc_scene_mf_classic_dict_attack_on_exit s).open_handles = s.open_handles - 1 ∧
    (nfc_scene_mf_classic_dict_attack_on_exit s).ctx.nested_target_key
      = s.ctx.nested_target_key ∧
    (nfc_scene_mf_classic_dict_attack_on_exit s).ctx.msb_count = s.ctx.msb_count := by
  simp [nfc_scene_mf_classic_dict_attack_on_exit]
